import Mathlib

/-!
Verification of the catch-the-mouch game engine (shallow embedding).

The definitions below are translated from the two game-screen modules
(the multiplayer screen `GameScreenMultiplayer.tsx`, which is the
authoritative version of the simulation core, and the single-player
screen, whose species/speed/score logic is identical).  Numbers that the
source computes with JavaScript floats are modelled as exact rationals
(`Rat`); calls to `Math.random()` become explicit rational parameters;
`Math.sin` and `Math.sqrt` (whose numeric values never matter for the
properties proved here) become explicit function parameters, keeping the
shape of every formula intact.  The JavaScript `Map` of spatial-hash
buckets becomes an association list from integer cell coordinates to
bucket member lists; the JS `Set` of entity references becomes a
duplicate-free list of pool-slot numbers, where a slot number models the
object identity of an entity record (distinct from its transient string
`id`, which is re-randomised on every acquire).
-/

/-- Species rarity tags, from the static `birdTypes` table. -/
inductive Rarity where
  | common
  | uncommon
  | rare
  | legendary
deriving DecidableEq, Repr

/-- One row of the static species table (`BirdType` in the source). -/
structure BirdType where
  name : String
  points : Int
  rarity : Rarity
  spawnRate : Nat
deriving DecidableEq, Repr

/-- `birdTypes[0]`: Bee, 1 point. -/
def beeType : BirdType := { name := "Bee", points := 1, rarity := .common, spawnRate := 15 }

/-- `birdTypes[1]`: Butterfly, 2 points. -/
def butterflyType : BirdType :=
  { name := "Butterfly", points := 2, rarity := .uncommon, spawnRate := 10 }

/-- `birdTypes[2]`: Blue Mouch, 5 points (the rare species). -/
def blueMouchType : BirdType :=
  { name := "Blue Mouch", points := 5, rarity := .rare, spawnRate := 5 }

/-- `birdTypes[3]`: Mouch, 10 points (the legendary species). -/
def mouchType : BirdType := { name := "Mouch", points := 10, rarity := .legendary, spawnRate := 2 }

/-- The static species table (`birdTypes` array in both game screens). -/
def birdTypes : List BirdType := [beeType, butterflyType, blueMouchType, mouchType]

/-- `getRandomBird` from both game screens: a cumulative-threshold draw on
a uniform random value.  `random < 0.6` gives Bee, `random < 0.85`
Butterfly, `random < 0.95` Blue Mouch, otherwise Mouch. -/
def getRandomBird (random : ℚ) : BirdType :=
  if random < 6/10 then beeType
  else if random < 85/100 then butterflyType
  else if random < 95/100 then blueMouchType
  else mouchType

/-- `getScaledSize` (responsive scaling): scale a base size by
`min(width/896, height/504)` and clamp to at least 50% of the base. -/
def getScaledSize (containerWidth containerHeight baseSize : ℚ) : ℚ :=
  max (baseSize * min (containerWidth / 896) (containerHeight / 504)) (baseSize * (1/2))

/-- `baseSpeed` from `createBird`:
`timeProgress = 1 - seconds/60; baseSpeed = 1.5 + timeProgress * 1.5`. -/
def baseSpeed (seconds : ℚ) : ℚ := 3/2 + (1 - seconds / 60) * (3/2)

/-- `speed` from `createBird`: `baseSpeed + Math.random() * 1.0`, with the
random draw as an explicit parameter. -/
def spawnSpeed (seconds random : ℚ) : ℚ := baseSpeed seconds + random * 1

/-- Entity phase (`status` field): `'flying' | 'hit'` in the source; the
spec calls these Flying and Falling. -/
inductive BirdStatus where
  | flying
  | hit
deriving DecidableEq, Repr

/-- Facing (`direction` field): `'left' | 'right'`. -/
inductive Dir where
  | left
  | right
deriving DecidableEq, Repr

/-- An entity record (`BirdPosition` in the multiplayer screen).  `slot`
models the object identity of the pooled record (JS object reference);
`id` is the transient gameplay id re-randomised at each acquire.  The
cosmetic `animation` field is omitted (out of simulation scope). -/
structure Bird where
  slot : Nat
  id : Nat
  bird : BirdType
  x : ℚ
  y : ℚ
  velocityX : ℚ
  velocityY : ℚ
  direction : Dir
  initialY : ℚ
  status : BirdStatus
  active : Bool
  cellKey : Option (Int × Int)
deriving DecidableEq, Repr

/-- The spatial hash (`spatialHashRef`): an association list from cell
coordinates to buckets of slot numbers.  The JS `Map` keeps unique keys;
all operations below preserve key uniqueness. -/
abbrev Hash := List ((Int × Int) × List Nat)

/-- `getCellKeyFromXY`: `(Math.floor(x/cellSize), Math.floor(y/cellSize))`.
The source encodes the pair as the string key `"ix,iy"`, an injective
encoding modelled directly as the pair. -/
def getCellKeyFromXY (x y cellSize : ℚ) : Int × Int :=
  (Int.floor (x / cellSize), Int.floor (y / cellSize))

/-- `Map.get`: look up the bucket stored at a key. -/
def getBucket (h : Hash) (k : Int × Int) : Option (List Nat) :=
  (h.find? (fun kb => decide (kb.1 = k))).map (fun kb => kb.2)

/-- `Map.set` on an existing key: replace the bucket stored at `k`. -/
def setBucket (h : Hash) (k : Int × Int) (nb : List Nat) : Hash :=
  h.map (fun kb => if kb.1 = k then (k, nb) else kb)

/-- `Map.delete`: drop the entry for a key. -/
def deleteKey (h : Hash) (k : Int × Int) : Hash :=
  h.filter (fun kb => decide (¬ kb.1 = k))

/-- `Set.add`: append a slot to a bucket unless already present. -/
def bucketAdd (b : List Nat) (slot : Nat) : List Nat :=
  if slot ∈ b then b else b ++ [slot]

/-- `Set.delete`: remove a slot from a bucket. -/
def bucketDel (b : List Nat) (slot : Nat) : List Nat :=
  b.filter (fun s => decide (¬ s = slot))

/-- `spatialInsert(bird, cellSize)`: compute the entity's cell key, set its
back-reference, and add it to that cell's bucket (creating the bucket if
absent).  Returns the updated entity record and hash. -/
def spatialInsert (bird : Bird) (cellSize : ℚ) (h : Hash) : Bird × Hash :=
  let key := getCellKeyFromXY bird.x bird.y cellSize
  let bird := { bird with cellKey := some key }
  match getBucket h key with
  | none => (bird, h ++ [(key, [bird.slot])])
  | some bucket => (bird, setBucket h key (bucketAdd bucket bird.slot))

/-- `spatialUpdateIfMoved(bird, cellSize)`: recompute the key; no-op if it
matches the stored back-reference, else delete from the old bucket
(removing the bucket if it became empty) and insert into the new one. -/
def spatialUpdateIfMoved (bird : Bird) (cellSize : ℚ) (h : Hash) : Bird × Hash :=
  let nextKey := getCellKeyFromXY bird.x bird.y cellSize
  if bird.cellKey = some nextKey then (bird, h)
  else
    let h1 := match bird.cellKey with
      | none => h
      | some prevKey =>
        match getBucket h prevKey with
        | none => h
        | some prev =>
          let prev1 := bucketDel prev bird.slot
          if prev1.length = 0 then deleteKey h prevKey else setBucket h prevKey prev1
    let bird := { bird with cellKey := some nextKey }
    match getBucket h1 nextKey with
    | none => (bird, h1 ++ [(nextKey, [bird.slot])])
    | some next => (bird, setBucket h1 nextKey (bucketAdd next bird.slot))

/-- `spatialRemove(bird)`: delete the entity from its bucket (removing the
bucket if it became empty) and clear its back-reference. -/
def spatialRemove (bird : Bird) (h : Hash) : Bird × Hash :=
  match bird.cellKey with
  | none => (bird, h)
  | some key =>
    let h1 := match getBucket h key with
      | none => h
      | some bucket =>
        let b1 := bucketDel bucket bird.slot
        if b1.length = 0 then deleteKey h key else setBucket h key b1
    ({ bird with cellKey := none }, h1)

/-- Per-client simulation state: the active list (`birdsRef`), the free
pool (`birdPoolRef`, most recently released record first), the spatial
hash, and a counter supplying fresh slot identities for records allocated
when the pool is empty. -/
structure SimState where
  birds : List Bird
  pool : List Bird
  hash : Hash
  nextSlot : Nat
deriving DecidableEq, Repr

/-- Dereference a slot number to its live record (a JS bucket holds the
object itself; the model looks the record up by identity). -/
def lookupSlot (s : SimState) (slot : Nat) : Option Bird :=
  (s.birds ++ s.pool).find? (fun b => decide (b.slot = slot))

/-- `queryNearbyBirds(x, y, radius)`: derive `cellSize = max(1, radius*2)`,
scan the 3×3 block of cells around `(x,y)`'s cell, and collect the
entities of those buckets that are currently in Flying phase. -/
def queryNearbyBirds (x y radius : ℚ) (s : SimState) : List Bird :=
  let cellSize := max 1 (radius * 2)
  let ix := Int.floor (x / cellSize)
  let iy := Int.floor (y / cellSize)
  (([-1, 0, 1] : List Int)).foldl (fun acc dy =>
    (([-1, 0, 1] : List Int)).foldl (fun acc dx =>
      match getBucket s.hash (ix + dx, iy + dy) with
      | none => acc
      | some bucket =>
        acc ++ (bucket.filterMap (lookupSlot s)).filter (fun b => decide (b.status = .flying)))
      acc) []

/-- The collision comparison of `handleGameAreaClick` (multiplayer):
`dx*dx + dy*dy < hitRadius*hitRadius`, a strict squared-distance test. -/
def hitTest (clickX clickY : ℚ) (b : Bird) (hitRadius : ℚ) : Bool :=
  decide ((clickX - b.x) * (clickX - b.x) + (clickY - b.y) * (clickY - b.y)
    < hitRadius * hitRadius)

/-- A record of one successful hit (`myHitHistory` entries). -/
structure HitRecord where
  birdType : String
  points : Int
  timestamp : Nat
deriving DecidableEq, Repr

/-- Replace the first element satisfying `p` (JS mutates the single object
returned by `find`). -/
def updateFirst (p : α → Bool) (f : α → α) : List α → List α
  | [] => []
  | a :: as => if p a then f a :: as else a :: updateFirst p f as

/-- `catchBird(birdId)`: look the entity up by gameplay id; if it is still
Flying, append a hit record to the local history and put the entity into
the falling phase (`status := hit`, `velocity := (0, 2)`).  The
blockchain write and audio cues are external collaborators, out of
scope. -/
def catchBird (birdId : Nat) (now : Nat) (s : SimState) (hist : List HitRecord) :
    SimState × List HitRecord :=
  match s.birds.find? (fun b => decide (b.id = birdId)) with
  | none => (s, hist)
  | some bird =>
    if bird.status = .flying then
      let birds1 := updateFirst (fun b => decide (b.id = birdId))
        (fun b => { b with status := .hit, velocityX := 0, velocityY := 2 }) s.birds
      let rec1 : HitRecord :=
        { birdType := bird.bird.name, points := bird.bird.points, timestamp := now }
      ({ s with birds := birds1 }, hist ++ [rec1])
    else (s, hist)

/-- The collision loop of `handleGameAreaClick`: query the 3×3
neighbourhood and catch every Flying candidate within the strict hit
radius (all overlapping birds are resolved independently). -/
def handleGameAreaClick (clickX clickY hitRadius : ℚ) (now : Nat) (s : SimState)
    (hist : List HitRecord) : SimState × List HitRecord :=
  (queryNearbyBirds clickX clickY hitRadius s).foldl
    (fun acc bird =>
      if hitTest clickX clickY bird hitRadius then catchBird bird.id now acc.1 acc.2 else acc)
    (s, hist)

/-- The swap-remove used by the unified game loop:
`const last = birds.pop()!; if (i < birds.length) birds[i] = last;`. -/
def swapRemove (l : List Bird) (i : Nat) : List Bird :=
  match l.getLast? with
  | none => l
  | some last =>
    let l1 := l.dropLast
    if i < l1.length then l1.set i last else l1

/-- One pass of the simulation step inside `gameLoop` (movement, gravity,
pooling, spatial-hash maintenance), written with explicit fuel (each
iteration either advances the index or shrinks the list, so fuel equal to
the initial list length is exact).  `rand` supplies the per-iteration
`Math.random()` draw used by the Bee jitter; `sinFn` stands for
`Math.sin`. -/
def stepLoopAux (width height cellSize : ℚ) (sinFn : ℚ → ℚ) (rand : Nat → ℚ) :
    Nat → Nat → Nat → List Bird → List Bird → Hash → List Bird × List Bird × Hash
  | 0, _, _, birds, pool, h => (birds, pool, h)
  | fuel + 1, k, i, birds, pool, h =>
    if hi : i < birds.length then
      let bird := birds.get ⟨i, hi⟩
      if bird.status = .hit then
        let vy := bird.velocityY + 1/10
        let b1 := { bird with velocityY := vy, y := bird.y + vy }
        let r1 := spatialUpdateIfMoved b1 cellSize h
        if r1.1.y ≤ height + 100 then
          stepLoopAux width height cellSize sinFn rand fuel (k + 1) (i + 1)
            (birds.set i r1.1) pool r1.2
        else
          let r2 := spatialRemove r1.1 r1.2
          let b2 := { r2.1 with active := false }
          stepLoopAux width height cellSize sinFn rand fuel (k + 1) i
            (swapRemove (birds.set i b2) i) (b2 :: pool) r2.2
      else
        let newX0 := bird.x + bird.velocityX
        let newY0 := bird.y + bird.velocityY
        let pos :=
          if bird.bird.name = "Butterfly" then
            (newX0, bird.initialY + bird.velocityY * (bird.x / bird.velocityX)
              + sinFn (bird.x * (3/100)) * (12/10) * 20)
          else if bird.bird.name = "Bee" then
            (newX0 + (rand k - 1/2) * 3, newY0)
          else (newX0, newY0)
        if -150 ≤ pos.1 ∧ pos.1 ≤ width + 150 ∧ -150 ≤ pos.2 ∧ pos.2 ≤ height + 150 then
          let b1 := { bird with x := pos.1, y := pos.2 }
          let r1 := spatialUpdateIfMoved b1 cellSize h
          stepLoopAux width height cellSize sinFn rand fuel (k + 1) (i + 1)
            (birds.set i r1.1) pool r1.2
        else
          let r1 := spatialRemove bird h
          let b1 := { r1.1 with active := false }
          stepLoopAux width height cellSize sinFn rand fuel (k + 1) i
            (swapRemove (birds.set i b1) i) (b1 :: pool) r1.2
    else (birds, pool, h)

/-- The whole per-frame simulation step over the active entity list. -/
def stepBirds (width height cellSize : ℚ) (sinFn : ℚ → ℚ) (rand : Nat → ℚ)
    (s : SimState) : SimState :=
  let r := stepLoopAux width height cellSize sinFn rand s.birds.length 0 0 s.birds s.pool s.hash
  { s with birds := r.1, pool := r.2.1, hash := r.2.2 }

/-- The release block of `gameLoop` in isolation: remove the entity at
index `i` from the spatial hash, deactivate it, push it onto the free
pool, and swap-remove it from the active list. -/
def releaseAt (s : SimState) (i : Nat) : SimState :=
  if hi : i < s.birds.length then
    let bird := s.birds.get ⟨i, hi⟩
    let r := spatialRemove bird s.hash
    let b1 := { r.1 with active := false }
    { s with birds := swapRemove (s.birds.set i b1) i, pool := b1 :: s.pool, hash := r.2 }
  else s

/-- The inputs of `createBird` that come from the component environment:
arena size, the responsive hit radius (`getScaledSize(32)`), the shared
round clock, and the two gate flags.  A present environment models a
mounted game container. -/
structure SpawnEnv where
  width : ℚ
  height : ℚ
  hitRadius : ℚ
  seconds : ℚ
  gameOver : Bool
  gameStarted : Bool
deriving DecidableEq, Repr

/-- `createBird(flockOptions?)`, the multiplayer version (pool acquire +
spawn kinematics + spatial insert).  `rSide`, `rB`, `rC`, `rSpecies` and
`rSpeed` are the successive `Math.random()` draws (edge pick, entry
coordinate, target coordinate, species, speed); `freshId` is the random
gameplay id; `sqrtFn` stands for `Math.sqrt`. -/
def createBird (env : SpawnEnv) (flockOptions : Option (Nat × ℚ))
    (rSide rB rC rSpecies rSpeed : ℚ) (freshId : Nat) (sqrtFn : ℚ → ℚ)
    (s : SimState) : SimState :=
  if env.gameOver || !env.gameStarted then s
  else
    let width := env.width
    let height := env.height
    let spawnDistance := min (getScaledSize width height 100) (min width height * (1/5))
    let side : Int :=
      match flockOptions with
      | some fo => (fo.1 : Int)
      | none => Int.floor (rSide * 4)
    let flockY : Option ℚ := flockOptions.map (fun fo => fo.2)
    let geom : ℚ × ℚ × ℚ × ℚ :=
      if side = 0 then
        (-spawnDistance,
          max spawnDistance (min (height - spawnDistance) (flockY.getD (rB * height))),
          width + spawnDistance,
          max spawnDistance (min (height - spawnDistance) (rC * height)))
      else if side = 1 then
        (width + spawnDistance,
          max spawnDistance (min (height - spawnDistance) (flockY.getD (rB * height))),
          -spawnDistance,
          max spawnDistance (min (height - spawnDistance) (rC * height)))
      else if side = 2 then
        (max spawnDistance (min (width - spawnDistance) (rB * width)),
          -spawnDistance,
          max spawnDistance (min (width - spawnDistance) (rC * width)),
          height + spawnDistance)
      else if side = 3 then
        (max spawnDistance (min (width - spawnDistance) (rB * width)),
          height + spawnDistance,
          max spawnDistance (min (width - spawnDistance) (rC * width)),
          -spawnDistance)
      else (0, 0, 0, 0)
    let x := geom.1
    let y := geom.2.1
    let targetX := geom.2.2.1
    let targetY := geom.2.2.2
    let birdType := getRandomBird rSpecies
    let dx := targetX - x
    let dy := targetY - y
    let distance := sqrtFn (dx * dx + dy * dy)
    let speed := spawnSpeed env.seconds rSpeed
    let velocityX := dx / distance * speed
    let velocityY := dy / distance * speed
    let acq : Bird × List Bird × Nat :=
      match s.pool with
      | pooled :: rest => (pooled, rest, s.nextSlot)
      | [] =>
        ({ slot := s.nextSlot, id := 0, bird := birdType, x := 0, y := 0, velocityX := 0,
            velocityY := 0, direction := .left, initialY := 0, status := .flying,
            active := false, cellKey := none }, [], s.nextSlot + 1)
    let inst : Bird :=
      { acq.1 with
        id := freshId, bird := birdType, x := x, y := y, velocityX := velocityX,
        velocityY := velocityY,
        direction := if velocityX > 0 then Dir.right else Dir.left,
        initialY := y, status := .flying, active := true, cellKey := none }
    let cellSize := max 1 (env.hitRadius * 2)
    let r := spatialInsert inst cellSize s.hash
    { birds := s.birds ++ [r.1], pool := acq.2.1, hash := r.2, nextSlot := acq.2.2 }

/-- `myCurrentScore` (and `score` in the single-player screen): the
left fold `hitHistory.reduce((sum, hit) => sum + hit.points, 0)`. -/
def myCurrentScore (hist : List HitRecord) : Int :=
  hist.foldl (fun sum hit => sum + hit.points) 0

/-- `myCurrentHits` (and `hits`): `hitHistory.length`. -/
def myCurrentHits (hist : List HitRecord) : Nat := hist.length

/-- The session-coordination state of the multiplayer screen: the shared
round flags and waiting machinery plus the per-client `gameOver` flag,
as read by one participant. -/
structure Session where
  gameStarted : Bool
  gameOver : Bool
  countdown : Nat
  seconds : Nat
  gameId : Nat
  sessionLocked : Bool
  allowedUsers : List String
  sessionEnded : Bool
  waitingForPlayers : Bool
  waitingTimer : Nat
  waitingReason : String
  gameResults : List (Nat × List (String × Int))
deriving DecidableEq, Repr

/-- The user-count effect (multiplayer, the four sequential `if` blocks):
during gameplay a drop below two participants arms the 30s waiting
state, a return to two or more (while waiting) disarms it and resets the
timer; at game over only the waiting message toggles.  All four guards
read the pre-effect state; later writes win. -/
def userCountEffect (userCount : Nat) (s : Session) : Session :=
  let s1 :=
    if s.gameStarted && !s.gameOver && decide (userCount < 2) then
      { s with
        waitingForPlayers := true, waitingTimer := 30,
        waitingReason := "A player left during the game. Waiting for them to rejoin..." }
    else s
  let s2 :=
    if s.gameStarted && !s.gameOver && decide (userCount ≥ 2) && s.waitingForPlayers then
      { s1 with waitingForPlayers := false, waitingTimer := 30, waitingReason := "" }
    else s1
  let s3 :=
    if s.gameOver && decide (userCount < 2) then
      { s2 with
        waitingForPlayers := true,
        waitingReason := "Waiting for more players to join..." }
    else s2
  if s.gameOver && decide (userCount ≥ 2) && s.waitingForPlayers then
    { s3 with waitingForPlayers := false, waitingReason := "" }
  else s3

/-- One firing of the waiting-timer timeout: armed only while waiting
during gameplay with a positive timer; at expiry the host marks the
session ended (and broadcasts the forced end) and the timer pins to 0,
otherwise the timer decrements. -/
def waitingTick (isCurrentHost : Bool) (s : Session) : Session :=
  if s.waitingForPlayers && decide (0 < s.waitingTimer) && s.gameStarted && !s.gameOver then
    if s.waitingTimer ≤ 1 then
      let s1 := if isCurrentHost then { s with sessionEnded := true } else s
      { s1 with waitingTimer := 0 }
    else { s with waitingTimer := s.waitingTimer - 1 }
  else s

/-- One firing of the shared 1-second round clock. -/
def secondsTick (s : Session) : Session :=
  if s.gameStarted && !s.gameOver then
    if s.seconds ≤ 1 then { s with gameOver := true, seconds := 0 }
    else { s with seconds := s.seconds - 1 }
  else s

/-- `handleStartGame`: host-only, needs two or more participants; locks
the session (capturing the allow-list) on first start and begins the
countdown. -/
def handleStartGame (isCurrentHost : Bool) (users : List String) (s : Session) : Session :=
  if isCurrentHost && decide (users.length ≥ 2) then
    let s1 :=
      if !s.sessionLocked then { s with sessionLocked := true, allowedUsers := users }
      else s
    { s1 with countdown := 3 }
  else s

/-- `setupNextGame`: host-only round rollover; snapshots the round scores
into the results table and resets the per-round counters. -/
def setupNextGame (isCurrentHost : Bool) (allTotalScores : List (String × Int))
    (s : Session) : Session :=
  if isCurrentHost then
    { s with
      gameResults := s.gameResults ++ [(s.gameId, allTotalScores)],
      gameId := s.gameId + 1, gameOver := false, gameStarted := false,
      countdown := 0, seconds := 60 }
  else s

/-- `handleEndSession`: host-only; marks the session ended and broadcasts
the forced end to every participant. -/
def handleEndSession (isCurrentHost : Bool) (s : Session) : Session :=
  if isCurrentHost then { s with sessionEnded := true } else s

/-! ## Concrete instances used by witnesses and counterexamples -/

/-- A concrete Flying entity at the origin, used by witnesses. -/
def sampleBird : Bird :=
  { slot := 0, id := 1, bird := beeType, x := 0, y := 0, velocityX := 1, velocityY := 0,
    direction := .right, initialY := 0, status := .flying, active := true, cellKey := none }

/-- A concrete mid-round two-player session, used by witnesses. -/
def sampleSession : Session :=
  { gameStarted := true, gameOver := false, countdown := 0, seconds := 45, gameId := 1,
    sessionLocked := true, allowedUsers := ["a", "b"], sessionEnded := false,
    waitingForPlayers := false, waitingTimer := 30, waitingReason := "", gameResults := [] }

/-- A session waiting with 12 seconds left on the waiting timer. -/
def waitingSession : Session :=
  { sampleSession with waitingForPlayers := true, waitingTimer := 12 }

/-- A waiting session one tick from expiry. -/
def expiringSession : Session :=
  { sampleSession with waitingForPlayers := true, waitingTimer := 1 }

/-- An entity in bucket `(0,0)` that has drifted into cell `(1,0)` at
cell size 64. -/
def idemBird : Bird :=
  { slot := 5, id := 2, bird := beeType, x := 100, y := 20, velocityX := 1, velocityY := 0,
    direction := .right, initialY := 20, status := .flying, active := true,
    cellKey := some (0, 0) }

/-- The spatial hash holding `idemBird` in bucket `(0,0)`. -/
def idemHash : Hash := [((0, 0), [5])]

/-- One cell visit of `queryNearbyBirds`: look up the bucket and append
its Flying members to the accumulator. -/
def qStep (s : SimState) (k : Int × Int) (acc : List Bird) : List Bird :=
  match getBucket s.hash k with
  | none => acc
  | some bucket =>
    acc ++ (bucket.filterMap (lookupSlot s)).filter (fun b => decide (b.status = .flying))

/-- A Flying entity whose bucket key was computed at cell size 64. -/
def queryBird : Bird :=
  { slot := 0, id := 3, bird := beeType, x := 100, y := 20, velocityX := 1, velocityY := 0,
    direction := .right, initialY := 20, status := .flying, active := true,
    cellKey := some (1, 0) }

/-- The index holding `queryBird` under its cell-size-64 key. -/
def querySim : SimState :=
  { birds := [queryBird], pool := [], hash := [((1, 0), [0])], nextSlot := 1 }

/-- A Flying entity far from the origin, about to be indexed at cell
size 64 (hit radius 32). -/
def farBird : Bird :=
  { slot := 0, id := 4, bird := beeType, x := 1000, y := 0, velocityX := 1, velocityY := 0,
    direction := .right, initialY := 0, status := .flying, active := true, cellKey := none }

/-- `farBird` inserted into an empty spatial hash at cell size 64, as
`createBird` does with the standard hit radius: its bucket key is
`(15, 0)`. -/
def farInserted : Bird × Hash := spatialInsert farBird 64 []

/-- The simulation state holding the indexed `farBird`. -/
def farSim : SimState :=
  { birds := [farInserted.1], pool := [], hash := farInserted.2, nextSlot := 1 }

/-- A standard-size spawning environment for witnesses. -/
def spawnEnv : SpawnEnv :=
  { width := 896, height := 504, hitRadius := 32, seconds := 60, gameOver := false,
    gameStarted := true }

/-- The empty simulation state. -/
def emptySim : SimState := { birds := [], pool := [], hash := [], nextSlot := 0 }

/-- A Flying entity hit-testable by id 9. -/
def targetBird : Bird :=
  { slot := 6, id := 9, bird := butterflyType, x := 40, y := 50, velocityX := 2,
    velocityY := 0, direction := .right, initialY := 50, status := .flying, active := true,
    cellKey := some (0, 0) }

/-- A one-entity state about to resolve a hit on `targetBird`. -/
def catchSim : SimState :=
  { birds := [targetBird], pool := [], hash := [((0, 0), [6])], nextSlot := 7 }

/-! ## Helper lemmas -/

lemma foldl_add_points (hist : List HitRecord) (a : Int) :
    hist.foldl (fun sum hit => sum + hit.points) a = a + (hist.map (fun h => h.points)).sum := by
  induction hist generalizing a with
  | nil => simp
  | cons h t ih => simp [ih, add_assoc]

/-! ## Claim theorems -/

/-- C1: For every uniform draw `r` in `[0,1)`, species selection maps `r`
to a species deterministically and exhaustively by the exact cumulative
thresholds: `r < 0.60` gives Bee, `0.60 ≤ r < 0.85` Butterfly,
`0.85 ≤ r < 0.95` Blue Mouch (the rare species), and `0.95 ≤ r` Mouch
(the legendary species), with no gap and no overlap between the cases. -/
theorem getRandomBird_partition (r : ℚ) (h0 : 0 ≤ r) (h1 : r < 1) :
    (getRandomBird r = beeType ↔ r < 6/10) ∧
    (getRandomBird r = butterflyType ↔ 6/10 ≤ r ∧ r < 85/100) ∧
    (getRandomBird r = blueMouchType ↔ 85/100 ≤ r ∧ r < 95/100) ∧
    (getRandomBird r = mouchType ↔ 95/100 ≤ r) := by
  unfold getRandomBird
  split_ifs with ha hb hc
  · exact ⟨iff_of_true rfl ha,
      iff_of_false (by decide) (fun h => absurd h.1 (not_le.mpr ha)),
      iff_of_false (by decide)
        (fun h => absurd h.1 (not_le.mpr (ha.trans (by norm_num)))),
      iff_of_false (by decide)
        (fun h => absurd h (not_le.mpr (ha.trans (by norm_num))))⟩
  · exact ⟨iff_of_false (by decide) ha,
      iff_of_true rfl ⟨not_lt.mp ha, hb⟩,
      iff_of_false (by decide) (fun h => absurd hb (not_lt.mpr h.1)),
      iff_of_false (by decide)
        (fun h => absurd hb (not_lt.mpr (le_trans (by norm_num) h)))⟩
  · exact ⟨iff_of_false (by decide) ha,
      iff_of_false (by decide) (fun h => hb h.2),
      iff_of_true rfl ⟨not_lt.mp hb, hc⟩,
      iff_of_false (by decide) (fun h => absurd hc (not_lt.mpr h))⟩
  · exact ⟨iff_of_false (by decide) ha,
      iff_of_false (by decide) (fun h => hb h.2),
      iff_of_false (by decide) (fun h => hc h.2),
      iff_of_true rfl (not_lt.mp hc)⟩

/-- Witness for C1 at the concrete draw `r = 0.7` (Butterfly band). -/
theorem getRandomBird_partition_witness :
    getRandomBird (7/10) = butterflyType := by
  exact ((getRandomBird_partition (7/10) (by norm_num) (by norm_num)).2.1).mpr
    ⟨by norm_num, by norm_num⟩

/-- C2: hit resolution compares the squared distance strictly against the
squared radius, so a point whose distance `d` to the entity center equals
`hitRadius` exactly is not a hit, while any point at distance strictly
less than `hitRadius` is a hit: the hit boundary is open. -/
theorem hitTest_open_boundary (clickX clickY : ℚ) (b : Bird) (hitRadius d : ℚ)
    (hd : 0 ≤ d)
    (hdist : d * d = (clickX - b.x) * (clickX - b.x) + (clickY - b.y) * (clickY - b.y)) :
    (d = hitRadius → hitTest clickX clickY b hitRadius = false) ∧
    (d < hitRadius → hitTest clickX clickY b hitRadius = true) := by
  constructor
  · intro h
    subst h
    simp only [hitTest, decide_eq_false_iff_not]
    rw [← hdist]
    exact lt_irrefl _
  · intro h
    simp only [hitTest, decide_eq_true_eq]
    rw [← hdist]
    nlinarith

/-- Witness for C2: a click at `(3,4)`, entity at the origin (distance 5):
with `hitRadius = 5` the boundary point is not a hit, with `hitRadius = 6`
it is. -/
theorem hitTest_open_boundary_witness :
    hitTest 3 4 sampleBird 5 = false ∧ hitTest 3 4 sampleBird 6 = true :=
  ⟨(hitTest_open_boundary 3 4 sampleBird 5 5 (by norm_num) (by norm_num [sampleBird])).1 rfl,
    (hitTest_open_boundary 3 4 sampleBird 6 5 (by norm_num) (by norm_num [sampleBird])).2
      (by norm_num)⟩

/-- C7: a spawned entity's scalar speed is `baseSpeed + random(0,1)` with
`baseSpeed = 1.5 + 1.5 × roundProgress` and
`roundProgress = 1 − secondsRemaining/60`; at `secondsRemaining = 60` the
base speed is exactly 1.5 and at `secondsRemaining = 0` exactly 3.0. -/
theorem spawnSpeed_formula (seconds r : ℚ) :
    spawnSpeed seconds r = (3/2 + (3/2) * (1 - seconds / 60)) + r ∧
    baseSpeed 60 = 3/2 ∧ baseSpeed 0 = 3 := by
  refine ⟨?_, by norm_num [baseSpeed], by norm_num [baseSpeed]⟩
  unfold spawnSpeed baseSpeed
  ring

/-- C10: the displayed totals are derived from the append-only hit
history — the score is the sum of the recorded points, the hit count the
history length, appending one record moves them by exactly that record,
and `catchBird` can only leave the history unchanged or append a single
record — so score, hits and history can never disagree. -/
theorem score_derived_from_history (hist : List HitRecord) (rec : HitRecord)
    (birdId now : Nat) (s : SimState) :
    myCurrentScore hist = (hist.map (fun h => h.points)).sum ∧
    myCurrentHits hist = hist.length ∧
    myCurrentScore (hist ++ [rec]) = myCurrentScore hist + rec.points ∧
    myCurrentHits (hist ++ [rec]) = myCurrentHits hist + 1 ∧
    ((catchBird birdId now s hist).2 = hist ∨
      ∃ r, (catchBird birdId now s hist).2 = hist ++ [r]) := by
  refine ⟨foldl_add_points hist 0 |>.trans (by ring), rfl, ?_, by simp [myCurrentHits], ?_⟩
  · simp [myCurrentScore, foldl_add_points]
  · unfold catchBird
    cases hfind : s.birds.find? (fun b => decide (b.id = birdId)) with
    | none => exact Or.inl rfl
    | some bird =>
      dsimp only
      split_ifs with hs
      · exact Or.inr ⟨_, rfl⟩
      · exact Or.inl rfl

/-- C8: while the round is active (started, not over), a participant count
below 2 puts the session into the waiting state with the timer set to 30;
a count back at 2 or more while waiting returns the session to active play
and resets the timer to 30 (it does not resume from its remaining
value). -/
theorem waiting_pause_resume (userCount : Nat) (s : Session)
    (hgs : s.gameStarted = true) (hgo : s.gameOver = false) :
    (userCount < 2 →
      (userCountEffect userCount s).waitingForPlayers = true ∧
      (userCountEffect userCount s).waitingTimer = 30) ∧
    (2 ≤ userCount → s.waitingForPlayers = true →
      (userCountEffect userCount s).waitingForPlayers = false ∧
      (userCountEffect userCount s).waitingTimer = 30) := by
  constructor
  · intro hc
    have h2 : ¬ userCount ≥ 2 := by omega
    simp [userCountEffect, hgs, hgo, hc, h2]
  · intro hc hw
    have h2 : ¬ userCount < 2 := by omega
    simp [userCountEffect, hgs, hgo, hc, h2, hw]

/-- Witness for C8: dropping to one participant arms the 30s timer; a
return to two participants at `waitingTimer = 12` resumes play with the
timer reset to 30, not 12. -/
theorem waiting_pause_resume_witness :
    ((userCountEffect 1 sampleSession).waitingForPlayers = true ∧
      (userCountEffect 1 sampleSession).waitingTimer = 30) ∧
    ((userCountEffect 2 waitingSession).waitingForPlayers = false ∧
      (userCountEffect 2 waitingSession).waitingTimer = 30) :=
  ⟨(waiting_pause_resume 1 sampleSession rfl rfl).1 (by decide),
    (waiting_pause_resume 2 waitingSession rfl rfl).2 (by decide) rfl⟩

/-- C9: when the waiting timer expires (reaches 0) during an active round
— which only happens while the participant count is still below 2, since
a recovery disarms the waiting state — the host marks the shared session
as ended; and `sessionEnded` is one-way for the room: no session
operation (timer ticks, user-count changes, round rollover, start, or
end) ever clears it. -/
theorem sessionEnded_terminal (s : Session) (isCurrentHost : Bool)
    (scores : List (String × Int)) (users : List String) (userCount : Nat) :
    (s.waitingForPlayers = true → s.gameStarted = true → s.gameOver = false →
      s.waitingTimer = 1 →
      (waitingTick true s).sessionEnded = true ∧ (waitingTick true s).waitingTimer = 0) ∧
    (s.sessionEnded = true → (waitingTick isCurrentHost s).sessionEnded = true) ∧
    (s.sessionEnded = true → (userCountEffect userCount s).sessionEnded = true) ∧
    (s.sessionEnded = true → (secondsTick s).sessionEnded = true) ∧
    (s.sessionEnded = true → (setupNextGame isCurrentHost scores s).sessionEnded = true) ∧
    (s.sessionEnded = true → (handleStartGame isCurrentHost users s).sessionEnded = true) ∧
    (s.sessionEnded = true → (handleEndSession isCurrentHost s).sessionEnded = true) := by
  refine ⟨?_, ?_, ?_, ?_, ?_, ?_, ?_⟩
  · intro hw hgs hgo ht
    simp [waitingTick, hw, hgs, hgo, ht]
  · intro h
    unfold waitingTick
    split_ifs <;> simp [h]
  · intro h
    unfold userCountEffect
    split_ifs <;> simp [h]
  · intro h
    unfold secondsTick
    split_ifs <;> simp [h]
  · intro h
    unfold setupNextGame
    split_ifs <;> simp [h]
  · intro h
    unfold handleStartGame
    split_ifs <;> simp [h]
  · intro h
    unfold handleEndSession
    split_ifs <;> simp [h]

/-- Witness for C9: the expiry tick on the host pins the timer to 0 and
marks the session ended. -/
theorem sessionEnded_terminal_witness :
    (waitingTick true expiringSession).sessionEnded = true ∧
    (waitingTick true expiringSession).waitingTimer = 0 :=
  (sessionEnded_terminal expiringSession true [] [] 0).1 rfl rfl rfl rfl

/-! ## Spatial-hash helper lemmas -/

lemma getBucket_nil (k : Int × Int) : getBucket [] k = none := rfl

lemma getBucket_cons (kb : (Int × Int) × List Nat) (t : Hash) (k : Int × Int) :
    getBucket (kb :: t) k = if kb.1 = k then some kb.2 else getBucket t k := by
  by_cases hk : kb.1 = k <;> simp [getBucket, List.find?_cons, hk]

lemma setBucket_cons (kb : (Int × Int) × List Nat) (t : Hash) (k : Int × Int) (nb : List Nat) :
    setBucket (kb :: t) k nb = (if kb.1 = k then (k, nb) else kb) :: setBucket t k nb := rfl

lemma deleteKey_cons (kb : (Int × Int) × List Nat) (t : Hash) (k : Int × Int) :
    deleteKey (kb :: t) k = if kb.1 = k then deleteKey t k else kb :: deleteKey t k := by
  by_cases hk : kb.1 = k <;> simp [deleteKey, List.filter_cons, hk]

lemma getBucket_setBucket_self (h : Hash) (k : Int × Int) (nb l : List Nat)
    (hb : getBucket h k = some l) : getBucket (setBucket h k nb) k = some nb := by
  induction h with
  | nil => simp [getBucket_nil] at hb
  | cons kb t ih =>
    rw [getBucket_cons] at hb
    rw [setBucket_cons, getBucket_cons]
    by_cases hk : kb.1 = k
    · simp [hk]
    · rw [if_neg hk] at hb
      rw [if_neg hk, if_neg hk]
      exact ih hb

lemma getBucket_setBucket_ne (h : Hash) (k : Int × Int) (nb : List Nat) (k' : Int × Int)
    (hne : k' ≠ k) : getBucket (setBucket h k nb) k' = getBucket h k' := by
  induction h with
  | nil => rfl
  | cons kb t ih =>
    rw [setBucket_cons, getBucket_cons, getBucket_cons]
    by_cases hk : kb.1 = k
    · have h1 : ((k, nb) : (Int × Int) × List Nat).1 ≠ k' := fun hh => hne hh.symm
      have h2 : kb.1 ≠ k' := fun hh => hne (hh ▸ hk)
      rw [if_pos hk, if_neg h1, if_neg h2]
      exact ih
    · rw [if_neg hk]
      by_cases hk' : kb.1 = k'
      · rw [if_pos hk', if_pos hk']
      · rw [if_neg hk', if_neg hk']
        exact ih

lemma getBucket_deleteKey_self (h : Hash) (k : Int × Int) :
    getBucket (deleteKey h k) k = none := by
  induction h with
  | nil => rfl
  | cons kb t ih =>
    rw [deleteKey_cons]
    by_cases hk : kb.1 = k
    · rw [if_pos hk]
      exact ih
    · rw [if_neg hk, getBucket_cons, if_neg hk]
      exact ih

lemma getBucket_deleteKey_ne (h : Hash) (k k' : Int × Int) (hne : k' ≠ k) :
    getBucket (deleteKey h k) k' = getBucket h k' := by
  induction h with
  | nil => rfl
  | cons kb t ih =>
    rw [deleteKey_cons, getBucket_cons]
    by_cases hk : kb.1 = k
    · have h2 : kb.1 ≠ k' := fun hh => hne (hh ▸ hk)
      rw [if_pos hk, if_neg h2]
      exact ih
    · rw [if_neg hk, getBucket_cons]
      by_cases hk' : kb.1 = k'
      · rw [if_pos hk', if_pos hk']
      · rw [if_neg hk', if_neg hk']
        exact ih

lemma getBucket_append_new (h : Hash) (k : Int × Int) (l : List Nat)
    (hnone : getBucket h k = none) : getBucket (h ++ [(k, l)]) k = some l := by
  induction h with
  | nil => simp [getBucket_cons]
  | cons kb t ih =>
    rw [getBucket_cons] at hnone
    rw [List.cons_append, getBucket_cons]
    by_cases hk : kb.1 = k
    · rw [if_pos hk] at hnone
      exact absurd hnone (by simp)
    · rw [if_neg hk] at hnone
      rw [if_neg hk]
      exact ih hnone

lemma getBucket_append_single_ne (h : Hash) (k : Int × Int) (l : List Nat) (k' : Int × Int)
    (hne : k' ≠ k) : getBucket (h ++ [(k, l)]) k' = getBucket h k' := by
  induction h with
  | nil =>
    rw [List.nil_append, getBucket_cons]
    exact if_neg (fun hh => hne hh.symm)
  | cons kb t ih =>
    rw [List.cons_append, getBucket_cons, getBucket_cons]
    by_cases hk' : kb.1 = k'
    · rw [if_pos hk', if_pos hk']
    · rw [if_neg hk', if_neg hk']
      exact ih

lemma mem_setBucket {kb : (Int × Int) × List Nat} {h : Hash} {k : Int × Int} {nb : List Nat}
    (hm : kb ∈ setBucket h k nb) : kb ∈ h ∨ kb = (k, nb) := by
  rcases List.mem_map.mp hm with ⟨a, ha, hEq⟩
  by_cases hk : a.1 = k
  · rw [if_pos hk] at hEq
    exact Or.inr hEq.symm
  · rw [if_neg hk] at hEq
    exact Or.inl (hEq ▸ ha)

lemma snd_of_mem_setBucket {kb : (Int × Int) × List Nat} {h : Hash} {k : Int × Int}
    {nb : List Nat} (hm : kb ∈ setBucket h k nb) (hkey : kb.1 = k) : kb.2 = nb := by
  rcases List.mem_map.mp hm with ⟨a, _, hEq⟩
  by_cases hk : a.1 = k
  · rw [if_pos hk] at hEq
    rw [← hEq]
  · rw [if_neg hk] at hEq
    exact absurd (hEq ▸ hkey) hk

lemma mem_deleteKey {kb : (Int × Int) × List Nat} {h : Hash} {k : Int × Int}
    (hm : kb ∈ deleteKey h k) : kb ∈ h ∧ kb.1 ≠ k := by
  have := List.mem_filter.mp hm
  simpa using this

lemma mem_bucketAdd_self (b : List Nat) (slot : Nat) : slot ∈ bucketAdd b slot := by
  unfold bucketAdd
  split_ifs with hm
  · exact hm
  · simp

lemma mem_bucketAdd {x : Nat} {b : List Nat} {slot : Nat} (hm : x ∈ bucketAdd b slot) :
    x ∈ b ∨ x = slot := by
  unfold bucketAdd at hm
  split_ifs at hm with hs
  · exact Or.inl hm
  · simpa using hm

lemma bucketAdd_nodup {b : List Nat} (hnd : b.Nodup) (slot : Nat) :
    (bucketAdd b slot).Nodup := by
  unfold bucketAdd
  split_ifs with hm
  · exact hnd
  · simp [List.nodup_append, hnd, hm]

lemma count_bucketAdd_fresh {b : List Nat} {slot : Nat} (hnot : slot ∉ b) :
    (bucketAdd b slot).count slot = 1 := by
  unfold bucketAdd
  rw [if_neg hnot]
  simp [List.count_append, List.count_eq_zero_of_not_mem hnot]

lemma not_mem_bucketDel (b : List Nat) (slot : Nat) : slot ∉ bucketDel b slot := by
  intro hm
  have := List.mem_filter.mp hm
  simp at this

lemma mem_bucketDel {x : Nat} {b : List Nat} {slot : Nat} (hm : x ∈ bucketDel b slot) :
    x ∈ b ∧ x ≠ slot := by
  have := List.mem_filter.mp hm
  simpa using this

lemma mem_of_getBucket_eq_some {h : Hash} {k : Int × Int} {l : List Nat}
    (hb : getBucket h k = some l) : (k, l) ∈ h := by
  induction h with
  | nil => simp [getBucket_nil] at hb
  | cons kb t ih =>
    rw [getBucket_cons] at hb
    by_cases hk : kb.1 = k
    · rw [if_pos hk] at hb
      have h2 : kb.2 = l := Option.some.inj hb
      rw [← hk, ← h2]
      exact List.mem_cons_self _ _
    · rw [if_neg hk] at hb
      exact List.mem_cons_of_mem _ (ih hb)

lemma keys_setBucket (h : Hash) (k : Int × Int) (nb : List Nat) :
    (setBucket h k nb).map Prod.fst = h.map Prod.fst := by
  induction h with
  | nil => rfl
  | cons kb t ih =>
    rw [setBucket_cons]
    simp only [List.map_cons, ih]
    congr 1
    by_cases hk : kb.1 = k
    · rw [if_pos hk, hk]
    · rw [if_neg hk]

lemma keys_nodup_deleteKey (h : Hash) (k : Int × Int)
    (hkeys : (h.map Prod.fst).Nodup) : ((deleteKey h k).map Prod.fst).Nodup :=
  hkeys.sublist ((List.filter_sublist h).map Prod.fst)

lemma not_mem_keys_of_getBucket_none {h : Hash} {k : Int × Int}
    (hnone : getBucket h k = none) : k ∉ h.map Prod.fst := by
  induction h with
  | nil => simp
  | cons kb t ih =>
    rw [getBucket_cons] at hnone
    by_cases hk : kb.1 = k
    · rw [if_pos hk] at hnone
      exact absurd hnone (by simp)
    · rw [if_neg hk] at hnone
      simp only [List.map_cons, List.mem_cons]
      rintro (h1 | h2)
      · exact hk h1.symm
      · exact ih hnone h2

/-- The bucket-insertion tail shared by `spatialUpdateIfMoved` and
`spatialInsert`: inserting a slot that occurs nowhere leaves it present
exactly once at its key, absent elsewhere, with buckets duplicate-free
and keys unique. -/
lemma insertStep_spec (h1 : Hash) (nk : Int × Int) (slot : Nat) (h2 : Hash)
    (hh2 : h2 = match getBucket h1 nk with
      | none => h1 ++ [(nk, [slot])]
      | some next => setBucket h1 nk (bucketAdd next slot))
    (hkeys : (h1.map Prod.fst).Nodup)
    (hnd : ∀ kb ∈ h1, kb.2.Nodup)
    (hnone : ∀ kb ∈ h1, slot ∈ kb.2 → False) :
    (∃ nb, getBucket h2 nk = some nb ∧ nb.count slot = 1) ∧
    (∀ kb ∈ h2, kb.1 ≠ nk → slot ∉ kb.2) ∧
    (∀ kb ∈ h2, kb.2.Nodup) ∧
    (h2.map Prod.fst).Nodup := by
  rcases hg : getBucket h1 nk with _ | nb
  · rw [hg] at hh2
    subst hh2
    refine ⟨⟨[slot], getBucket_append_new h1 nk [slot] hg, by simp⟩, ?_, ?_, ?_⟩
    · intro kb hm hne hs
      rcases List.mem_append.mp hm with hmh | hmt
      · exact hnone kb hmh hs
      · have hEq : kb = (nk, [slot]) := by simpa using hmt
        exact hne (by rw [hEq])
    · intro kb hm
      rcases List.mem_append.mp hm with hmh | hmt
      · exact hnd kb hmh
      · have hEq : kb = (nk, [slot]) := by simpa using hmt
        rw [hEq]
        simp
    · rw [List.map_append]
      simp only [List.map_cons, List.map_nil]
      rw [List.nodup_append]
      refine ⟨hkeys, List.nodup_singleton nk, ?_⟩
      intro a ha hb
      have hEq : a = nk := by simpa using hb
      exact not_mem_keys_of_getBucket_none hg (hEq ▸ ha)
  · rw [hg] at hh2
    subst hh2
    have hnbm : (nk, nb) ∈ h1 := mem_of_getBucket_eq_some hg
    have hfresh : slot ∉ nb := fun hs => hnone _ hnbm hs
    refine ⟨⟨bucketAdd nb slot, getBucket_setBucket_self h1 nk _ nb hg,
      count_bucketAdd_fresh hfresh⟩, ?_, ?_, ?_⟩
    · intro kb hm hne hs
      rcases mem_setBucket hm with hmh | hEq
      · exact hnone kb hmh hs
      · exact hne (by rw [hEq])
    · intro kb hm
      rcases mem_setBucket hm with hmh | hEq
      · exact hnd kb hmh
      · rw [hEq]
        exact bucketAdd_nodup (hnd _ hnbm) slot
    · rw [keys_setBucket]
      exact hkeys

/-- After the removal half of a move, the moved slot occurs nowhere in the
hash (every bucket that held it had its old key, and those buckets were
rewritten without it or deleted). -/
lemma slot_not_in_removed (h : Hash) (k0 : Int × Int) (bk0 : List Nat) (slot : Nat)
    (honly : ∀ kb ∈ h, slot ∈ kb.2 → kb.1 = k0) :
    ∀ kb ∈ (if (bucketDel bk0 slot).length = 0 then deleteKey h k0
        else setBucket h k0 (bucketDel bk0 slot)), slot ∈ kb.2 → False := by
  intro kb hm hs
  split_ifs at hm with hp
  · obtain ⟨hmh, hkne⟩ := mem_deleteKey hm
    exact hkne (honly kb hmh hs)
  · rcases mem_setBucket hm with hmh | hEq
    · have hk0 := honly kb hmh hs
      have hsnd := snd_of_mem_setBucket hm hk0
      rw [hsnd] at hs
      exact not_mem_bucketDel _ _ hs
    · rw [hEq] at hs
      exact not_mem_bucketDel _ _ hs

lemma nodup_removed (h : Hash) (k0 : Int × Int) (bk0 : List Nat) (slot : Nat)
    (hnd : ∀ kb ∈ h, kb.2.Nodup) (hbk : bk0.Nodup) :
    ∀ kb ∈ (if (bucketDel bk0 slot).length = 0 then deleteKey h k0
        else setBucket h k0 (bucketDel bk0 slot)), kb.2.Nodup := by
  intro kb hm
  split_ifs at hm with hp
  · exact hnd kb (mem_deleteKey hm).1
  · rcases mem_setBucket hm with hmh | hEq
    · exact hnd kb hmh
    · rw [hEq]
      exact hbk.filter _

lemma keys_nodup_removed (h : Hash) (k0 : Int × Int) (bk0 : List Nat) (slot : Nat)
    (hkeys : (h.map Prod.fst).Nodup) :
    (((if (bucketDel bk0 slot).length = 0 then deleteKey h k0
        else setBucket h k0 (bucketDel bk0 slot)) : Hash).map Prod.fst).Nodup := by
  split_ifs with hp
  · exact keys_nodup_deleteKey h k0 hkeys
  · rw [keys_setBucket]
    exact hkeys

/-- `spatialUpdateIfMoved` is the identity when the stored back-reference
already matches the entity's cell. -/
lemma spatialUpdateIfMoved_noop (b : Bird) (cs : ℚ) (h : Hash)
    (hk : b.cellKey = some (getCellKeyFromXY b.x b.y cs)) :
    spatialUpdateIfMoved b cs h = (b, h) := by
  unfold spatialUpdateIfMoved
  rw [if_pos hk]

/-- The entity returned by `spatialUpdateIfMoved` carries the freshly
computed key and is otherwise unchanged. -/
lemma spatialUpdateIfMoved_fst (b : Bird) (cs : ℚ) (h : Hash) :
    (spatialUpdateIfMoved b cs h).1.cellKey = some (getCellKeyFromXY b.x b.y cs) ∧
    (spatialUpdateIfMoved b cs h).1.x = b.x ∧
    (spatialUpdateIfMoved b cs h).1.y = b.y ∧
    (spatialUpdateIfMoved b cs h).1.slot = b.slot ∧
    (spatialUpdateIfMoved b cs h).1.status = b.status := by
  simp only [spatialUpdateIfMoved]
  split_ifs with hk
  · exact ⟨hk, rfl, rfl, rfl, rfl⟩
  · rcases hg : getBucket (match b.cellKey with
      | none => h
      | some prevKey =>
        match getBucket h prevKey with
        | none => h
        | some prev =>
          if (bucketDel prev b.slot).length = 0 then deleteKey h prevKey
          else setBucket h prevKey (bucketDel prev b.slot)) (getCellKeyFromXY b.x b.y cs)
      with _ | nb <;> simp [hg]

/-- The hash produced by the moving branch of `spatialUpdateIfMoved`,
written with the removal half exposed. -/
lemma spatialUpdateIfMoved_snd_move (b : Bird) (cs : ℚ) (h : Hash) (k0 : Int × Int)
    (bk0 : List Nat) (hck : b.cellKey = some k0) (hgb : getBucket h k0 = some bk0)
    (hne : ¬ b.cellKey = some (getCellKeyFromXY b.x b.y cs)) :
    (spatialUpdateIfMoved b cs h).2 =
      (match getBucket
          (if (bucketDel bk0 b.slot).length = 0 then deleteKey h k0
            else setBucket h k0 (bucketDel bk0 b.slot))
          (getCellKeyFromXY b.x b.y cs) with
        | none =>
          (if (bucketDel bk0 b.slot).length = 0 then deleteKey h k0
            else setBucket h k0 (bucketDel bk0 b.slot))
            ++ [(getCellKeyFromXY b.x b.y cs, [b.slot])]
        | some next =>
          setBucket
            (if (bucketDel bk0 b.slot).length = 0 then deleteKey h k0
              else setBucket h k0 (bucketDel bk0 b.slot))
            (getCellKeyFromXY b.x b.y cs) (bucketAdd next b.slot)) := by
  simp only [spatialUpdateIfMoved]
  rw [if_neg hne, hck]
  simp only [hgb]
  rcases hg : getBucket
      (if (bucketDel bk0 b.slot).length = 0 then deleteKey h k0
        else setBucket h k0 (bucketDel bk0 b.slot))
      (getCellKeyFromXY b.x b.y cs) with _ | nb <;> simp [hg]

/-- C5: for an entity properly present in the spatial index (its
back-reference names a bucket that contains it, and only that bucket),
calling `spatialUpdateIfMoved` twice with no position change leaves the
index exactly as after the first call — the second call is a strict
no-op — and after the first call the entity appears exactly once in the
bucket of its (possibly new) cell, in no other bucket, with all buckets
duplicate-free and keys unique. -/
theorem spatialUpdateIfMoved_idempotent (b : Bird) (cs : ℚ) (h : Hash)
    (hkeys : (h.map Prod.fst).Nodup)
    (hnodup : ∀ kb ∈ h, kb.2.Nodup)
    (hin : ∃ k0 bk0, b.cellKey = some k0 ∧ getBucket h k0 = some bk0 ∧ b.slot ∈ bk0)
    (honly : ∀ kb ∈ h, b.slot ∈ kb.2 → some kb.1 = b.cellKey) :
    spatialUpdateIfMoved (spatialUpdateIfMoved b cs h).1 cs (spatialUpdateIfMoved b cs h).2
        = spatialUpdateIfMoved b cs h ∧
    (∃ nb, getBucket (spatialUpdateIfMoved b cs h).2 (getCellKeyFromXY b.x b.y cs) = some nb ∧
      nb.count b.slot = 1) ∧
    (∀ kb ∈ (spatialUpdateIfMoved b cs h).2, kb.1 ≠ getCellKeyFromXY b.x b.y cs →
      b.slot ∉ kb.2) ∧
    (∀ kb ∈ (spatialUpdateIfMoved b cs h).2, kb.2.Nodup) ∧
    ((spatialUpdateIfMoved b cs h).2.map Prod.fst).Nodup := by
  obtain ⟨hfk, hfx, hfy, hfs, hfst⟩ := spatialUpdateIfMoved_fst b cs h
  have hnoop2 : spatialUpdateIfMoved (spatialUpdateIfMoved b cs h).1 cs
      (spatialUpdateIfMoved b cs h).2 = spatialUpdateIfMoved b cs h := by
    rw [spatialUpdateIfMoved_noop _ cs _ (by rw [hfx, hfy]; exact hfk)]
  refine ⟨hnoop2, ?_⟩
  obtain ⟨k0, bk0, hck, hgb, hsm⟩ := hin
  by_cases hk : b.cellKey = some (getCellKeyFromXY b.x b.y cs)
  · rw [spatialUpdateIfMoved_noop b cs h hk]
    have hknk : k0 = getCellKeyFromXY b.x b.y cs := by
      rw [hck] at hk
      exact Option.some.inj hk
    subst hknk
    refine ⟨⟨bk0, hgb, ?_⟩, ?_, hnodup, hkeys⟩
    · exact List.count_eq_one_of_mem (hnodup _ (mem_of_getBucket_eq_some hgb)) hsm
    · intro kb hm hne hs
      have hsome := honly kb hm hs
      rw [hck] at hsome
      exact hne (Option.some.inj hsome)
  · have honly' : ∀ kb ∈ h, b.slot ∈ kb.2 → kb.1 = k0 := by
      intro kb hm hs
      have hsome := honly kb hm hs
      rw [hck] at hsome
      exact Option.some.inj hsome
    rw [spatialUpdateIfMoved_snd_move b cs h k0 bk0 hck hgb hk]
    have hbk0nd : bk0.Nodup := hnodup _ (mem_of_getBucket_eq_some hgb)
    exact insertStep_spec _ _ _ _ rfl (keys_nodup_removed h k0 bk0 b.slot hkeys)
      (nodup_removed h k0 bk0 b.slot hnodup hbk0nd)
      (slot_not_in_removed h k0 bk0 b.slot honly')

/-- Witness for C5 at a concrete moved entity and one-bucket hash. -/
theorem spatialUpdateIfMoved_idempotent_witness :
    spatialUpdateIfMoved (spatialUpdateIfMoved idemBird 64 idemHash).1 64
        (spatialUpdateIfMoved idemBird 64 idemHash).2
      = spatialUpdateIfMoved idemBird 64 idemHash ∧
    (∃ nb, getBucket (spatialUpdateIfMoved idemBird 64 idemHash).2
        (getCellKeyFromXY idemBird.x idemBird.y 64) = some nb ∧
      nb.count idemBird.slot = 1) ∧
    (∀ kb ∈ (spatialUpdateIfMoved idemBird 64 idemHash).2,
      kb.1 ≠ getCellKeyFromXY idemBird.x idemBird.y 64 → idemBird.slot ∉ kb.2) ∧
    (∀ kb ∈ (spatialUpdateIfMoved idemBird 64 idemHash).2, kb.2.Nodup) ∧
    ((spatialUpdateIfMoved idemBird 64 idemHash).2.map Prod.fst).Nodup :=
  spatialUpdateIfMoved_idempotent idemBird 64 idemHash (by decide) (by decide)
    ⟨(0, 0), [5], rfl, by decide, by decide⟩ (by decide)

/-- `queryNearbyBirds` written as the nine cell visits of its 3×3 scan, in
iteration order. -/
lemma queryNearbyBirds_expand (x y radius : ℚ) (s : SimState) (ix iy : Int)
    (hix : ix = Int.floor (x / max 1 (radius * 2)))
    (hiy : iy = Int.floor (y / max 1 (radius * 2))) :
    queryNearbyBirds x y radius s =
      qStep s (ix + 1, iy + 1) (qStep s (ix + 0, iy + 1) (qStep s (ix + -1, iy + 1)
        (qStep s (ix + 1, iy + 0) (qStep s (ix + 0, iy + 0) (qStep s (ix + -1, iy + 0)
          (qStep s (ix + 1, iy + -1) (qStep s (ix + 0, iy + -1)
            (qStep s (ix + -1, iy + -1) [])))))))) := by
  subst hix
  subst hiy
  rfl

lemma qStep_subset (s : SimState) (k : Int × Int) (acc : List Bird) :
    acc ⊆ qStep s k acc := by
  unfold qStep
  cases getBucket s.hash k with
  | none => exact List.Subset.refl _
  | some bucket => exact List.subset_append_left _ _

lemma qStep_flying (s : SimState) (k : Int × Int) (acc : List Bird)
    (hacc : ∀ b ∈ acc, b.status = .flying) :
    ∀ b ∈ qStep s k acc, b.status = .flying := by
  unfold qStep
  cases getBucket s.hash k with
  | none => exact hacc
  | some bucket =>
    intro b hb
    rcases List.mem_append.mp hb with h1 | h2
    · exact hacc b h1
    · exact of_decide_eq_true (List.mem_filter.mp h2).2

lemma qStep_mem (s : SimState) (k : Int × Int) (acc : List Bird) (b : Bird) (bk : List Nat)
    (hg : getBucket s.hash k = some bk) (hslot : b.slot ∈ bk)
    (hlook : lookupSlot s b.slot = some b) (hfly : b.status = .flying) :
    b ∈ qStep s k acc := by
  unfold qStep
  simp only [hg]
  refine List.mem_append.mpr (Or.inr ?_)
  refine List.mem_filter.mpr ⟨?_, by simp [hfly]⟩
  exact List.mem_filterMap.mpr ⟨b.slot, hslot, hlook⟩

/-- C3 (amended): for an entity in Flying phase present in the spatial
index, `queryNearbyBirds` centered on the entity's own exact position
includes that entity for every radius `≥ 0` whose derived cell size
`max(1, 2·radius)` agrees with the cell size under which the entity's
bucket key was computed (in particular whenever the query uses the same
hit radius the index is maintained with); and unconditionally every
entity it returns is in Flying phase. -/
theorem queryNearbyBirds_spec (s : SimState) (b : Bird) (radius : ℚ)
    (hr : 0 ≤ radius)
    (hfly : b.status = .flying)
    (hkey : b.cellKey = some (getCellKeyFromXY b.x b.y (max 1 (radius * 2))))
    (hmem : ∃ bk, getBucket s.hash (getCellKeyFromXY b.x b.y (max 1 (radius * 2))) = some bk ∧
      b.slot ∈ bk)
    (hlook : lookupSlot s b.slot = some b) :
    b ∈ queryNearbyBirds b.x b.y radius s ∧
    ∀ c ∈ queryNearbyBirds b.x b.y radius s, c.status = .flying := by
  obtain ⟨bk, hg, hslot⟩ := hmem
  rw [queryNearbyBirds_expand b.x b.y radius s _ _ rfl rfl]
  have hg0 : getBucket s.hash (Int.floor (b.x / max 1 (radius * 2)) + 0,
      Int.floor (b.y / max 1 (radius * 2)) + 0) = some bk := by
    rw [add_zero, add_zero]
    simpa [getCellKeyFromXY] using hg
  constructor
  · refine qStep_subset _ _ _ (qStep_subset _ _ _ (qStep_subset _ _ _ (qStep_subset _ _ _ ?_)))
    exact qStep_mem s _ _ b bk hg0 hslot hlook hfly
  · have h0 : ∀ c ∈ ([] : List Bird), c.status = .flying := by simp
    exact qStep_flying _ _ _ (qStep_flying _ _ _ (qStep_flying _ _ _ (qStep_flying _ _ _
      (qStep_flying _ _ _ (qStep_flying _ _ _ (qStep_flying _ _ _ (qStep_flying _ _ _
        (qStep_flying _ _ _ h0))))))))

/-- Witness for C3 at radius 32 (cell size 64, matching the index):
self-inclusion holds and everything returned is Flying. -/
theorem queryNearbyBirds_spec_witness :
    queryBird ∈ queryNearbyBirds queryBird.x queryBird.y 32 querySim ∧
    ∀ c ∈ queryNearbyBirds queryBird.x queryBird.y 32 querySim, c.status = .flying := by
  have hkey : getCellKeyFromXY queryBird.x queryBird.y (max 1 ((32 : ℚ) * 2)) = (1, 0) := by
    show getCellKeyFromXY 100 20 (max 1 ((32 : ℚ) * 2)) = (1, 0)
    unfold getCellKeyFromXY
    norm_num
  refine queryNearbyBirds_spec querySim queryBird 32 (by norm_num) rfl ?_ ?_ ?_
  · rw [hkey]
    rfl
  · rw [hkey]
    refine ⟨[0], ?_, by simp [queryBird]⟩
    show getBucket [(((1 : Int), (0 : Int)), [0])] (1, 0) = some [0]
    rw [getBucket_cons, if_pos rfl]
  · show lookupSlot querySim queryBird.slot = some queryBird
    simp [lookupSlot, querySim, List.find?]

lemma qStep_none (s : SimState) (k : Int × Int) (acc : List Bird)
    (h : getBucket s.hash k = none) : qStep s k acc = acc := by
  unfold qStep
  simp only [h]

/-- Evaluating the insertion of `farBird`: its key is `(15, 0)`. -/
lemma farInserted_eq :
    farInserted = ({ farBird with cellKey := some (15, 0) },
      [(((15 : Int), (0 : Int)), [0])]) := by
  have hkey : getCellKeyFromXY farBird.x farBird.y 64 = (15, 0) := by
    show getCellKeyFromXY 1000 0 (64 : ℚ) = (15, 0)
    unfold getCellKeyFromXY
    norm_num
  show spatialInsert farBird 64 [] = _
  simp only [spatialInsert, hkey]
  rfl

/-- Counterexample to C3 as stated: the entity is in Flying phase and
present in the spatial index (its back-reference names bucket `(15, 0)`,
which contains it), the radius 1 is `≥ 0`, yet `queryNearbyBirds` at the
entity's own exact position with that radius does not return it — the
3×3 scan derives cell size 2 from the query radius and never looks at
bucket `(15, 0)`, so self-inclusion fails for radii whose derived cell
size differs from the one the index was maintained with. -/
theorem queryNearbyBirds_spec_counterexample :
    farInserted.1.status = .flying ∧
    farInserted.1.cellKey = some (15, 0) ∧
    (∃ bk, getBucket farSim.hash ((15 : Int), (0 : Int)) = some bk ∧
      farInserted.1.slot ∈ bk) ∧
    lookupSlot farSim farInserted.1.slot = some farInserted.1 ∧
    (0 : ℚ) ≤ 1 ∧
    farInserted.1 ∉ queryNearbyBirds farInserted.1.x farInserted.1.y 1 farSim := by
  have hbucket : ∀ k : Int × Int, ¬ ((15 : Int), (0 : Int)) = k →
      getBucket farSim.hash k = none := by
    intro k hk
    rw [show farSim.hash = farInserted.2 from rfl, farInserted_eq]
    dsimp only
    rw [getBucket_cons, if_neg hk, getBucket_nil]
  refine ⟨?_, ?_, ?_, ?_, by norm_num, ?_⟩
  · rw [farInserted_eq]
    rfl
  · rw [farInserted_eq]
  · refine ⟨[0], ?_, ?_⟩
    · rw [show farSim.hash = farInserted.2 from rfl, farInserted_eq]
      dsimp only
      rw [getBucket_cons, if_pos rfl]
    · rw [farInserted_eq]
      simp [farBird]
  · unfold lookupSlot
    rw [show farSim.birds = [farInserted.1] from rfl, show farSim.pool = ([] : List Bird)
      from rfl]
    simp [List.find?]
  · have hx : (500 : Int) = Int.floor (farInserted.1.x / max 1 ((1 : ℚ) * 2)) := by
      rw [show farInserted.1.x = (1000 : ℚ) from by rw [farInserted_eq]; rfl]
      norm_num
    have hy : (0 : Int) = Int.floor (farInserted.1.y / max 1 ((1 : ℚ) * 2)) := by
      rw [show farInserted.1.y = (0 : ℚ) from by rw [farInserted_eq]; rfl]
      norm_num
    rw [queryNearbyBirds_expand _ _ 1 farSim 500 0 hx hy]
    have hb1 := hbucket (500 + 1, 0 + 1) (by decide)
    have hb2 := hbucket (500 + 0, 0 + 1) (by decide)
    have hb3 := hbucket (500 + -1, 0 + 1) (by decide)
    have hb4 := hbucket (500 + 1, 0 + 0) (by decide)
    have hb5 := hbucket (500 + 0, 0 + 0) (by decide)
    have hb6 := hbucket (500 + -1, 0 + 0) (by decide)
    have hb7 := hbucket (500 + 1, 0 + -1) (by decide)
    have hb8 := hbucket (500 + 0, 0 + -1) (by decide)
    have hb9 := hbucket (500 + -1, 0 + -1) (by decide)
    rw [qStep_none _ _ _ hb1, qStep_none _ _ _ hb2, qStep_none _ _ _ hb3,
      qStep_none _ _ _ hb4, qStep_none _ _ _ hb5, qStep_none _ _ _ hb6,
      qStep_none _ _ _ hb7, qStep_none _ _ _ hb8, qStep_none _ _ _ hb9]
    exact List.not_mem_nil _

/-- The record returned by `spatialInsert` carries the key freshly
computed from its own position, and it is a member of that key's
bucket. -/
lemma spatialInsert_result (inst : Bird) (cs : ℚ) (h : Hash) :
    (spatialInsert inst cs h).1.cellKey =
      some (getCellKeyFromXY (spatialInsert inst cs h).1.x (spatialInsert inst cs h).1.y cs) ∧
    ∃ bk, getBucket (spatialInsert inst cs h).2
        (getCellKeyFromXY (spatialInsert inst cs h).1.x (spatialInsert inst cs h).1.y cs)
        = some bk ∧ (spatialInsert inst cs h).1.slot ∈ bk := by
  unfold spatialInsert
  rcases hg : getBucket h (getCellKeyFromXY inst.x inst.y cs) with _ | bucket
  · simp only [hg]
    exact ⟨trivial, [inst.slot], getBucket_append_new h _ _ hg, by simp⟩
  · simp only [hg]
    exact ⟨trivial, bucketAdd bucket inst.slot,
      getBucket_setBucket_self h _ _ bucket hg, mem_bucketAdd_self bucket inst.slot⟩

/-- A successful `createBird` (acquire) appends one freshly initialized
entity: its back-reference is the key of its own spawn position under
the current cell size — never a leftover from a previous life — and it
is present in that bucket. -/
lemma createBird_fresh (env : SpawnEnv) (fo : Option (Nat × ℚ)) (rSide rB rC rSpecies rSpeed : ℚ)
    (freshId : Nat) (sqrtFn : ℚ → ℚ) (s : SimState)
    (hgo : env.gameOver = false) (hgs : env.gameStarted = true) :
    ∃ nb, (createBird env fo rSide rB rC rSpecies rSpeed freshId sqrtFn s).birds
        = s.birds ++ [nb] ∧
      nb.cellKey = some (getCellKeyFromXY nb.x nb.y (max 1 (env.hitRadius * 2))) ∧
      ∃ bk, getBucket (createBird env fo rSide rB rC rSpecies rSpeed freshId sqrtFn s).hash
          (getCellKeyFromXY nb.x nb.y (max 1 (env.hitRadius * 2))) = some bk ∧
        nb.slot ∈ bk := by
  have hguard : (env.gameOver || !env.gameStarted) = false := by
    rw [hgo, hgs]
    rfl
  simp only [createBird, hguard, Bool.false_eq_true, if_false]
  exact ⟨_, rfl, (spatialInsert_result _ _ _).1, (spatialInsert_result _ _ _).2⟩

/-- `spatialRemove` always clears the back-reference of the record it
returns. -/
lemma spatialRemove_fst_cellKey (bird : Bird) (h : Hash) :
    (spatialRemove bird h).1.cellKey = none := by
  unfold spatialRemove
  cases hck : bird.cellKey
  · exact hck
  · rfl

/-- The release block of the game loop pushes the released record onto
the pool with its back-reference cleared. -/
lemma releaseAt_clears (s : SimState) (i : Nat) (hi : i < s.birds.length) :
    ∃ b1, (releaseAt s i).pool = b1 :: s.pool ∧ b1.cellKey = none := by
  unfold releaseAt
  rw [dif_pos hi]
  exact ⟨_, rfl, spatialRemove_fst_cellKey _ _⟩

/-- C6: acquire, then release (which removes the entity from the spatial
index and clears its back-reference before returning it to the pool),
then acquire again: the re-acquired entity's `cellKey` is freshly set by
the new insert to the key of its new position — it never still points at
the bucket it occupied in its previous life. -/
theorem acquireReleaseAcquire_no_stale (env1 env2 : SpawnEnv) (fo1 fo2 : Option (Nat × ℚ))
    (rSide1 rB1 rC1 rSpecies1 rSpeed1 rSide2 rB2 rC2 rSpecies2 rSpeed2 : ℚ)
    (id1 id2 : Nat) (sqrtFn : ℚ → ℚ) (s0 : SimState)
    (hgo1 : env1.gameOver = false) (hgs1 : env1.gameStarted = true)
    (hgo2 : env2.gameOver = false) (hgs2 : env2.gameStarted = true) :
    ∃ b1 nb,
      (releaseAt (createBird env1 fo1 rSide1 rB1 rC1 rSpecies1 rSpeed1 id1 sqrtFn s0)
          ((createBird env1 fo1 rSide1 rB1 rC1 rSpecies1 rSpeed1 id1 sqrtFn s0).birds.length
            - 1)).pool
        = b1 :: (createBird env1 fo1 rSide1 rB1 rC1 rSpecies1 rSpeed1 id1 sqrtFn s0).pool ∧
      b1.cellKey = none ∧
      (createBird env2 fo2 rSide2 rB2 rC2 rSpecies2 rSpeed2 id2 sqrtFn
          (releaseAt (createBird env1 fo1 rSide1 rB1 rC1 rSpecies1 rSpeed1 id1 sqrtFn s0)
            ((createBird env1 fo1 rSide1 rB1 rC1 rSpecies1 rSpeed1 id1 sqrtFn
              s0).birds.length - 1))).birds
        = (releaseAt (createBird env1 fo1 rSide1 rB1 rC1 rSpecies1 rSpeed1 id1 sqrtFn s0)
            ((createBird env1 fo1 rSide1 rB1 rC1 rSpecies1 rSpeed1 id1 sqrtFn
              s0).birds.length - 1)).birds ++ [nb] ∧
      nb.cellKey = some (getCellKeyFromXY nb.x nb.y (max 1 (env2.hitRadius * 2))) ∧
      ∃ bk, getBucket (createBird env2 fo2 rSide2 rB2 rC2 rSpecies2 rSpeed2 id2 sqrtFn
          (releaseAt (createBird env1 fo1 rSide1 rB1 rC1 rSpecies1 rSpeed1 id1 sqrtFn s0)
            ((createBird env1 fo1 rSide1 rB1 rC1 rSpecies1 rSpeed1 id1 sqrtFn
              s0).birds.length - 1))).hash
          (getCellKeyFromXY nb.x nb.y (max 1 (env2.hitRadius * 2))) = some bk ∧
        nb.slot ∈ bk := by
  obtain ⟨x1, hbirds1, _, _⟩ := createBird_fresh env1 fo1 rSide1 rB1 rC1 rSpecies1 rSpeed1
    id1 sqrtFn s0 hgo1 hgs1
  have hlen : (createBird env1 fo1 rSide1 rB1 rC1 rSpecies1 rSpeed1 id1 sqrtFn
      s0).birds.length - 1
      < (createBird env1 fo1 rSide1 rB1 rC1 rSpecies1 rSpeed1 id1 sqrtFn s0).birds.length := by
    rw [hbirds1]
    simp
  obtain ⟨b1, hpool, hck⟩ := releaseAt_clears _ _ hlen
  obtain ⟨nb, hbirds2, hfresh, hbk⟩ := createBird_fresh env2 fo2 rSide2 rB2 rC2 rSpecies2
    rSpeed2 id2 sqrtFn _ hgo2 hgs2
  exact ⟨b1, nb, hpool, hck, hbirds2, hfresh, hbk⟩

/-- Witness for C6: the concrete acquire–release–acquire round trip from
the empty state. -/
theorem acquireReleaseAcquire_no_stale_witness :
    ∃ b1 nb,
      (releaseAt (createBird spawnEnv none 0 0 0 0 0 11 (fun _ => 1) emptySim)
          ((createBird spawnEnv none 0 0 0 0 0 11 (fun _ => 1) emptySim).birds.length
            - 1)).pool
        = b1 :: (createBird spawnEnv none 0 0 0 0 0 11 (fun _ => 1) emptySim).pool ∧
      b1.cellKey = none ∧
      (createBird spawnEnv none 0 0 0 0 0 12 (fun _ => 1)
          (releaseAt (createBird spawnEnv none 0 0 0 0 0 11 (fun _ => 1) emptySim)
            ((createBird spawnEnv none 0 0 0 0 0 11 (fun _ => 1)
              emptySim).birds.length - 1))).birds
        = (releaseAt (createBird spawnEnv none 0 0 0 0 0 11 (fun _ => 1) emptySim)
            ((createBird spawnEnv none 0 0 0 0 0 11 (fun _ => 1)
              emptySim).birds.length - 1)).birds ++ [nb] ∧
      nb.cellKey = some (getCellKeyFromXY nb.x nb.y (max 1 (spawnEnv.hitRadius * 2))) ∧
      ∃ bk, getBucket (createBird spawnEnv none 0 0 0 0 0 12 (fun _ => 1)
          (releaseAt (createBird spawnEnv none 0 0 0 0 0 11 (fun _ => 1) emptySim)
            ((createBird spawnEnv none 0 0 0 0 0 11 (fun _ => 1)
              emptySim).birds.length - 1))).hash
          (getCellKeyFromXY nb.x nb.y (max 1 (spawnEnv.hitRadius * 2))) = some bk ∧
        nb.slot ∈ bk :=
  acquireReleaseAcquire_no_stale spawnEnv spawnEnv none none 0 0 0 0 0 0 0 0 0 0 11 12
    (fun _ => 1) emptySim rfl rfl rfl rfl

lemma mem_swapRemove {c : Bird} {l : List Bird} {i : Nat} (hm : c ∈ swapRemove l i) :
    c ∈ l := by
  unfold swapRemove at hm
  rcases hg : l.getLast? with _ | last
  · rw [hg] at hm
    exact hm
  · rw [hg] at hm
    dsimp only at hm
    split_ifs at hm with hi
    · rcases List.mem_or_eq_of_mem_set hm with h1 | h2
      · exact List.dropLast_subset l h1
      · rw [h2]
        exact List.mem_of_mem_getLast? hg
    · exact List.dropLast_subset l hm

lemma mem_updateFirst {c : α} {p : α → Bool} {f : α → α} {l : List α}
    (hm : c ∈ updateFirst p f l) : c ∈ l ∨ ∃ b ∈ l, c = f b := by
  induction l with
  | nil => simp [updateFirst] at hm
  | cons a t ih =>
    rw [updateFirst] at hm
    split_ifs at hm with hp
    · rcases List.mem_cons.mp hm with h1 | h2
      · exact Or.inr ⟨a, List.mem_cons_self a t, h1⟩
      · exact Or.inl (List.mem_cons_of_mem _ h2)
    · rcases List.mem_cons.mp hm with h1 | h2
      · exact Or.inl (h1 ▸ List.mem_cons_self a t)
      · rcases ih h2 with h3 | ⟨b, hb, hEq⟩
        · exact Or.inl (List.mem_cons_of_mem _ h3)
        · exact Or.inr ⟨b, List.mem_cons_of_mem _ hb, hEq⟩

lemma spatialRemove_fst (bird : Bird) (h : Hash) :
    (spatialRemove bird h).1.slot = bird.slot ∧
    (spatialRemove bird h).1.status = bird.status := by
  unfold spatialRemove
  cases bird.cellKey
  · exact ⟨rfl, rfl⟩
  · exact ⟨rfl, rfl⟩

/-- Lifting a slot/status trace through `List.set` at a replacement that
itself traces back to the original list. -/
lemma exists_src_set (birds : List Bird) (i : Nat) (bnew : Bird) (c : Bird)
    (hnew : ∃ b0 ∈ birds, bnew.slot = b0.slot ∧ bnew.status = b0.status)
    (hc : ∃ b ∈ birds.set i bnew, c.slot = b.slot ∧ c.status = b.status) :
    ∃ b ∈ birds, c.slot = b.slot ∧ c.status = b.status := by
  obtain ⟨b, hb, h1, h2⟩ := hc
  rcases List.mem_or_eq_of_mem_set hb with hmem | hEq
  · exact ⟨b, hmem, h1, h2⟩
  · subst hEq
    obtain ⟨b0, hb0, h3, h4⟩ := hnew
    exact ⟨b0, hb0, h1.trans h3, h2.trans h4⟩

lemma exists_src_swapRemove (birds : List Bird) (i j : Nat) (bnew : Bird) (c : Bird)
    (hnew : ∃ b0 ∈ birds, bnew.slot = b0.slot ∧ bnew.status = b0.status)
    (hc : ∃ b ∈ swapRemove (birds.set i bnew) j, c.slot = b.slot ∧ c.status = b.status) :
    ∃ b ∈ birds, c.slot = b.slot ∧ c.status = b.status := by
  obtain ⟨b, hb, h1, h2⟩ := hc
  exact exists_src_set birds i bnew c hnew ⟨b, mem_swapRemove hb, h1, h2⟩

/-- Every entity that survives the game-loop simulation pass traces back
by slot to an entity of the input list with the same phase. -/
lemma stepLoopAux_oneWay (width height cellSize : ℚ) (sinFn : ℚ → ℚ) (rand : Nat → ℚ) :
    ∀ (fuel k i : Nat) (birds pool : List Bird) (h : Hash),
      ∀ c ∈ (stepLoopAux width height cellSize sinFn rand fuel k i birds pool h).1,
        ∃ b ∈ birds, c.slot = b.slot ∧ c.status = b.status := by
  intro fuel
  induction fuel with
  | zero =>
    intro k i birds pool h c hc
    exact ⟨c, hc, rfl, rfl⟩
  | succ fuel ih =>
    intro k i birds pool h c hc
    simp only [stepLoopAux] at hc
    split at hc
    case isTrue hi =>
      have hbird : birds.get ⟨i, hi⟩ ∈ birds := List.get_mem birds i hi
      split at hc
      case isTrue hhit =>
        split at hc
        case isTrue hkeep =>
          refine exists_src_set birds i _ c
            ⟨birds.get ⟨i, hi⟩, hbird, ?_, ?_⟩ (ih _ _ _ _ _ c hc)
          · exact (spatialUpdateIfMoved_fst _ _ _).2.2.2.1
          · exact (spatialUpdateIfMoved_fst _ _ _).2.2.2.2
        case isFalse hkeep =>
          refine exists_src_swapRemove birds i i _ c
            ⟨birds.get ⟨i, hi⟩, hbird, ?_, ?_⟩ (ih _ _ _ _ _ c hc)
          · exact (spatialRemove_fst _ _).1.trans (spatialUpdateIfMoved_fst _ _ _).2.2.2.1
          · exact (spatialRemove_fst _ _).2.trans (spatialUpdateIfMoved_fst _ _ _).2.2.2.2
      case isFalse hfly =>
        split at hc
        · split at hc
          · refine exists_src_set birds i _ c
              ⟨birds.get ⟨i, hi⟩, hbird, ?_, ?_⟩ (ih _ _ _ _ _ c hc)
            · exact (spatialUpdateIfMoved_fst _ _ _).2.2.2.1
            · exact (spatialUpdateIfMoved_fst _ _ _).2.2.2.2
          · refine exists_src_swapRemove birds i i _ c
              ⟨birds.get ⟨i, hi⟩, hbird, ?_, ?_⟩ (ih _ _ _ _ _ c hc)
            · exact (spatialRemove_fst _ _).1
            · exact (spatialRemove_fst _ _).2
        · split at hc
          · split at hc
            · refine exists_src_set birds i _ c
                ⟨birds.get ⟨i, hi⟩, hbird, ?_, ?_⟩ (ih _ _ _ _ _ c hc)
              · exact (spatialUpdateIfMoved_fst _ _ _).2.2.2.1
              · exact (spatialUpdateIfMoved_fst _ _ _).2.2.2.2
            · refine exists_src_swapRemove birds i i _ c
                ⟨birds.get ⟨i, hi⟩, hbird, ?_, ?_⟩ (ih _ _ _ _ _ c hc)
              · exact (spatialRemove_fst _ _).1
              · exact (spatialRemove_fst _ _).2
          · split at hc
            · refine exists_src_set birds i _ c
                ⟨birds.get ⟨i, hi⟩, hbird, ?_, ?_⟩ (ih _ _ _ _ _ c hc)
              · exact (spatialUpdateIfMoved_fst _ _ _).2.2.2.1
              · exact (spatialUpdateIfMoved_fst _ _ _).2.2.2.2
            · refine exists_src_swapRemove birds i i _ c
                ⟨birds.get ⟨i, hi⟩, hbird, ?_, ?_⟩ (ih _ _ _ _ _ c hc)
              · exact (spatialRemove_fst _ _).1
              · exact (spatialRemove_fst _ _).2
    case isFalse hi =>
      exact ⟨c, hc, rfl, rfl⟩

/-- C4: once an active entity's phase is `hit` (Falling), no operation of
the system returns it to `flying`: hit resolution (`catchBird`) only
moves entities from Flying to Falling, the motion/pooling pass of the
game loop preserves each surviving entity's phase, and pool recycling
(`createBird`) leaves every already-active entity untouched. -/
theorem hit_phase_one_way :
    (∀ (birdId now : Nat) (s : SimState) (hist : List HitRecord),
      ∀ c ∈ (catchBird birdId now s hist).1.birds,
        ∃ b ∈ s.birds, c.slot = b.slot ∧ (b.status = .hit → c.status = .hit)) ∧
    (∀ (width height cellSize : ℚ) (sinFn : ℚ → ℚ) (rand : Nat → ℚ) (s : SimState),
      ∀ c ∈ (stepBirds width height cellSize sinFn rand s).birds,
        ∃ b ∈ s.birds, c.slot = b.slot ∧ (b.status = .hit → c.status = .hit)) ∧
    (∀ (env : SpawnEnv) (fo : Option (Nat × ℚ)) (rSide rB rC rSpecies rSpeed : ℚ)
        (freshId : Nat) (sqrtFn : ℚ → ℚ) (s : SimState),
      ∀ b ∈ s.birds, b ∈ (createBird env fo rSide rB rC rSpecies rSpeed freshId sqrtFn s).birds) := by
  refine ⟨?_, ?_, ?_⟩
  · intro birdId now s hist c hc
    unfold catchBird at hc
    cases hfind : s.birds.find? (fun b => decide (b.id = birdId)) with
    | none =>
      rw [hfind] at hc
      exact ⟨c, hc, rfl, fun hh => hh⟩
    | some bird =>
      rw [hfind] at hc
      dsimp only at hc
      split_ifs at hc with hs
      · rcases mem_updateFirst hc with h1 | ⟨b, hb, hEq⟩
        · exact ⟨c, h1, rfl, fun hh => hh⟩
        · exact ⟨b, hb, by rw [hEq], fun _ => by rw [hEq]⟩
      · exact ⟨c, hc, rfl, fun hh => hh⟩
  · intro width height cellSize sinFn rand s c hc
    obtain ⟨b, hb, h1, h2⟩ :=
      stepLoopAux_oneWay width height cellSize sinFn rand _ _ _ _ _ _ c hc
    exact ⟨b, hb, h1, fun hh => h2.trans hh⟩
  · intro env fo rSide rB rC rSpecies rSpeed freshId sqrtFn s b hb
    by_cases hguard : (env.gameOver || !env.gameStarted) = true
    · unfold createBird
      rw [if_pos hguard]
      exact hb
    · have hpair : env.gameOver = false ∧ env.gameStarted = true := by
        constructor
        · cases hgo : env.gameOver
          · rfl
          · exact absurd (by rw [hgo]; rfl) hguard
        · cases hgs : env.gameStarted
          · exact absurd (by rw [hgs]; simp) hguard
          · rfl
      obtain ⟨nb, hbirds, _, _⟩ := createBird_fresh env fo rSide rB rC rSpecies rSpeed
        freshId sqrtFn s hpair.1 hpair.2
      rw [hbirds]
      exact List.mem_append_left _ hb

/-- Witness for C4: resolving a hit on the concrete one-entity state
keeps every resulting active entity traceable to an input entity without
any hit-to-flying transition, and the active list still has exactly one
entity. -/
theorem hit_phase_one_way_witness :
    (∀ c ∈ (catchBird 9 0 catchSim []).1.birds,
      ∃ b ∈ catchSim.birds, c.slot = b.slot ∧ (b.status = .hit → c.status = .hit)) ∧
    (catchBird 9 0 catchSim []).1.birds.length = 1 :=
  ⟨hit_phase_one_way.1 9 0 catchSim [], by decide⟩
